import Mathlib

/-!
Verification of the Attachment_DSS frontend orchestration core.

Shallow embedding of the JavaScript source files:
- `dashboard.js` (src/unnamed/part_004): `classifyScore`, the questionnaire
  state and `resetQuestionnaire`;
- `dashboard.js` decision-engine variant (src/unnamed/part_005, second IIFE):
  `DecisionAgent.analyze`, `selWiz`, `resetWiz`, `procWiz`;
- `map.js` (src/frontend/js/map.js, first variant): `orchestrateSpatialAnalysis`,
  `fetchAndZoomState`, `triggerGPSOrchestrator`.

JavaScript numbers are modelled as rationals (ℚ); possibly-missing object
fields as `Option`; a network fetch outcome as the tagged `FetchResult`
(two-way, where the source only distinguishes thrown from not) or
`FetchOutcome` (three-way, where the source also branches on `res.ok`).
-/

namespace AttachmentDSS

/-! ## Classification engine (part_004, `classifyScore`) -/

/-- The five classification bands of `classifyScore`. -/
inductive Category
  | lowest
  | low
  | moderate
  | high
  | highest
deriving DecidableEq, Repr

/-- Branch structure of `classifyScore` for a non-null numeric input:
`if (v < 2) ... if (v < 4) ... if (v < 6) ... if (v < 8) ... else Highest`. -/
def classify (v : ℚ) : Category :=
  if v < 2 then .lowest
  else if v < 4 then .low
  else if v < 6 then .moderate
  else if v < 8 then .high
  else .highest

/-- Display color attached to each band by `classifyScore`. -/
def categoryColor : Category → String
  | .lowest => "#3f007d"
  | .low => "#2c7ef7"
  | .moderate => "#7fff00"
  | .high => "#ff6600"
  | .highest => "#b30000"

/-- Label attached to each band by `classifyScore`. -/
def categoryLabel : Category → String
  | .lowest => "Lowest Potential"
  | .low => "Low Potential"
  | .moderate => "Moderate Potential"
  | .high => "High Potential"
  | .highest => "Highest Potential"

/-- `classifyScore` as written: a null value yields the "No data" pair,
otherwise the (color, label) pair of the band of the numeric value. -/
def classifyScore (value : Option ℚ) : String × String :=
  match value with
  | none => ("#ddd", "No data")
  | some v => (categoryColor (classify v), categoryLabel (classify v))

/-- Rank of a band, for the monotonicity statement. -/
def categoryRank : Category → Nat
  | .lowest => 0
  | .low => 1
  | .moderate => 2
  | .high => 3
  | .highest => 4

/-! ## Decision agent (part_005 second IIFE, `DecisionAgent.analyze`) -/

/-- Input record of `DecisionAgent.analyze`; the JS fields default to 0
(numbers) resp. to a placeholder (the state name) when absent. -/
structure SiteData where
  solar_mean_score : Option ℚ
  wind_mean_score : Option ℚ
  slope : Option ℚ
  state_name : Option String
deriving DecidableEq, Repr

/-- The advisory chosen by `DecisionAgent.analyze`, one constructor per
return branch of the source (the rendered message strings interpolate
these data). -/
inductive Advisory
  | constraintHighSlope (slope : ℚ)
  | primeSite (stateName : String)
  | highPotential
  | moderateSite
  | lowResource
deriving DecidableEq, Repr

/-- `DecisionAgent.weights.slopeLimit`. -/
def slopeLimit : ℚ := 15

/-- JS `x || 'this area'`: `undefined` and the empty string are falsy. -/
def jsOrString (v : Option String) (dflt : String) : String :=
  match v with
  | none => dflt
  | some s => if s = "" then dflt else s

/-- `DecisionAgent.analyze` (part_005 lines 219–232): slope gate first,
then solar-score thresholds 8 / 6 / 4. -/
def analyze (data : SiteData) : Advisory :=
  if data.slope.getD 0 > slopeLimit then .constraintHighSlope (data.slope.getD 0)
  else if data.solar_mean_score.getD 0 ≥ 8 then .primeSite (jsOrString data.state_name "this area")
  else if data.solar_mean_score.getD 0 ≥ 6 then .highPotential
  else if data.solar_mean_score.getD 0 ≥ 4 then .moderateSite
  else .lowResource

/-! ## Recommendation wizard (part_005 second IIFE: `selWiz`, `resetWiz`,
`procWiz`) -/

/-- The four wizard application domains. -/
inductive AppDomain
  | waterPumping
  | refrigeration
  | drying
  | cooking
deriving DecidableEq, Repr

/-- `wizardState`: current domain (none = menu), current step, recorded
answers keyed by step, and the location string set by `updateDashboard`. -/
structure WizardState where
  sect : Option AppDomain
  step : Nat
  data : List (Nat × String)
  loc : Option String
deriving DecidableEq, Repr

/-- JS `data[step] = val` on the answers object. -/
def setData (d : List (Nat × String)) (k : Nat) (v : String) : List (Nat × String) :=
  (k, v) :: d.filter (fun p => p.1 != k)

/-- JS `data[k]` read. -/
def getData (d : List (Nat × String)) (k : Nat) : Option String :=
  (d.find? (fun p => p.1 == k)).map Prod.snd

/-- `selWiz(section)`: fresh session in the chosen domain (the whole state
object is replaced, so `loc` is dropped). -/
def selWiz (s : AppDomain) (_ : WizardState) : WizardState :=
  { sect := some s, step := 1, data := [], loc := none }

/-- `resetWiz()`: back to the menu, step 1, empty answers. -/
def resetWiz (_ : WizardState) : WizardState :=
  { sect := none, step := 1, data := [], loc := none }

/-- `resetQuestionnaire()` state of part_004: section, question number and
answers object. -/
structure QuestionnaireState where
  currentSection : Option AppDomain
  currentQNum : Nat
  answers : List (String × String)
deriving DecidableEq, Repr

/-- `resetQuestionnaire()` (part_004 lines 142–151). -/
def resetQuestionnaire (_ : QuestionnaireState) : QuestionnaireState :=
  { currentSection := none, currentQNum := 1, answers := [] }

/-- JS string interpolation of a possibly-undefined value. -/
def jsStr (v : Option String) : String :=
  match v with
  | none => "undefined"
  | some s => s

/-- Result of one `procWiz` call: either the session continues in a new
state, or `finishWiz(model, context)` is reached. -/
inductive ProcResult
  | next (st : WizardState)
  | finish (model : String) (context : String)
deriving DecidableEq, Repr

/-- `procWiz(val)` (part_005 lines 269–304). The answer is recorded under
the current step first; then the branch on (section, step) either returns
a terminal `finishWiz` recommendation or moves to the next step. -/
def procWiz (st0 : WizardState) (val : String) : ProcResult :=
  let st : WizardState := { st0 with data := setData st0.data st0.step val }
  match st0.sect with
  | some .waterPumping =>
      if st0.step = 1 then
        if val = "surface" then
          .finish "Model: DHFS300 (1500W; PV 6×335W)"
            ("Optimized for surface water points in " ++ jsStr st0.loc)
        else .next { st with step := 2 }
      else if st0.step = 2 then
        if val = "31-40" then .finish "Model: SUNFLO-B 500C (500W; PV 4×200W; Max 6m³/day)" ""
        else if val = "41-50" then .finish "Model: SUNFLO-A 270H (270W; PV 4×200W; Max 3m³/day)" ""
        else if val = "51-60" then .finish "Model: SUNFLO-S 300 (300W; PV 2×200W; Max 3m³/day)" ""
        else if val = "61-70" then .next { st with step := 7 }
        else .next { st with step := 3 }
      else if st0.step = 3 then
        if val = "1" then .finish "Model: SUNFLO-S 150" ""
        else if val = "2" then .finish "Model: SUNFLO-A 150H" ""
        else .finish "Model: SUNFLO-B 120H" ""
      else if st0.step = 7 then
        .finish (if val = "12" then "Model: SUNFLO-B 1000C (Motor 1000W)"
                 else "Model: SUNFLO-A 600H (Motor 600W)") ""
      else .next st
  | some .refrigeration =>
      if val = "less-55" then .finish "Model: SUNFRIDGE 55 (80W; 430x230x315mm)" ""
      else if val = "51-130" then .finish "Model: SUNFRIDGE 130 (128W; 513x530x585mm)" ""
      else .finish "Model: SUNFRIDGE 240 (150W; 993x516x594mm)" ""
  | some .drying =>
      .finish (if val = "passive" then "Supplier: Grekkon Ltd, Kenya"
               else "Supplier: Aqua Hub Kenya") "Agri-product dryer configuration."
  | some .cooking =>
      if st0.step = 1 then .next { st with step := 2 }
      else
        .finish ((if getData st.data 1 = some "single" then "Single Induction (Athel Tech; 400W Panel)"
                  else "Double Induction (Athel Tech; 800W Panel)") ++
                 (if val = "yes" then " + 6L Pressure Cooker (SCODE, Kenya)" else "")) ""
  | none => .next st

/-! ## Spatial analysis orchestration (src/frontend/js/map.js, first variant) -/

/-- Outcome of a single `fetch(...)`: either an OK response with a parsed
payload, or a non-OK / failed response. -/
inductive FetchResult (α : Type)
  | ok (value : α)
  | failed
deriving DecidableEq, Repr

/-- Outcome of one slot of the `Promise.all` pair in
`orchestrateSpatialAnalysis`, where the source distinguishes three cases:
the fetch resolved OK and its body parsed (`ok`), the fetch resolved with
a non-OK status (`notOk`), or the fetch rejected — transport failure,
timeout — or its `json()` call threw (`rejected`). -/
inductive FetchOutcome (α : Type)
  | ok (value : α)
  | notOk
  | rejected
deriving DecidableEq, Repr

/-- Payload of the pixel-metrics endpoint `/api/report/pixel`, spread into
the final record (the orchestrator never inspects beyond the spread). -/
structure PixelData where
  solar_mean_score : Option ℚ
  wind_mean_score : Option ℚ
  slope : Option ℚ
  mean_ghi : Option ℚ
  mean_wind_speed_ms : Option ℚ
  mean_wpd : Option ℚ
deriving DecidableEq, Repr

/-- Payload of the region-metrics endpoint `/state_metrics?lat=&lon=`. -/
structure StateMetrics where
  state_name : Option String
deriving DecidableEq, Repr

/-- `finalData = { ...pixelData, lat, lon, state_name: stateData.state_name }`. -/
structure SiteRecord where
  pixel : PixelData
  lat : ℚ
  lon : ℚ
  state_name : Option String
deriving DecidableEq, Repr

/-- Observable outcome of one `orchestrateSpatialAnalysis` run: the record
handed to `updateDashboard` (none when the run fails) and the text written
to the search-status element. -/
structure OrchestrationOutcome where
  dashboardUpdate : Option SiteRecord
  status : String
deriving DecidableEq, Repr

/-- The catch-block outcome of `orchestrateSpatialAnalysis`: no record is
handed to the dashboard, the failure status is written. -/
def orchestrationFailure : OrchestrationOutcome :=
  { dashboardUpdate := none, status := "Error: Coordinate outside data domain." }

/-- `orchestrateSpatialAnalysis(lat, lon)` (map.js lines 38–69), as a
function of the two concurrent fetch outcomes. Everything runs in one try
block: a `rejected` outcome on either slot rejects the `Promise.all` (or
throws from `json()`) into the catch block, and a non-OK pixel response
throws there explicitly — in all those cases the failure status is
written and `updateDashboard` is never called. Only a *resolved* non-OK
state-metrics response takes the degrade branch
`stateRes.ok ? await stateRes.json() : { state_name: "Unmapped Area" }`,
producing the record with the placeholder name. -/
def orchestrateSpatialAnalysis (lat lon : ℚ)
    (pixelRes : FetchOutcome PixelData) (stateRes : FetchOutcome StateMetrics) :
    OrchestrationOutcome :=
  match pixelRes, stateRes with
  | .rejected, _ => orchestrationFailure
  | _, .rejected => orchestrationFailure
  | .notOk, _ => orchestrationFailure
  | .ok pixelData, .ok sd =>
      { dashboardUpdate := some
          { pixel := pixelData, lat := lat, lon := lon, state_name := sd.state_name },
        status := "Point Analysis Synchronized." }
  | .ok pixelData, .notOk =>
      { dashboardUpdate := some
          { pixel := pixelData, lat := lat, lon := lon, state_name := some "Unmapped Area" },
        status := "Point Analysis Synchronized." }

/-- One analysis request: its coordinate and the results its two fetches
will eventually resolve with. -/
structure AnalysisRequest where
  lat : ℚ
  lon : ℚ
  pixelRes : FetchOutcome PixelData
  stateRes : FetchOutcome StateMetrics
deriving DecidableEq, Repr

/-- What one request's completion handler does to the dashboard: the
handler calls `updateDashboard(finalData)` unconditionally on success —
the source carries no request sequence number and no staleness guard —
and leaves the dashboard as-is on failure. -/
def applyCompletion (dashboard : Option SiteRecord) (r : AnalysisRequest) : Option SiteRecord :=
  match (orchestrateSpatialAnalysis r.lat r.lon r.pixelRes r.stateRes).dashboardUpdate with
  | some record => some record
  | none => dashboard

/-- Dashboard contents after a list of requests complete, in completion
(resolution) order. -/
def runCompletions (reqs : List AnalysisRequest) : Option SiteRecord :=
  reqs.foldl applyCompletion none

/-! ## Regional analysis (`fetchAndZoomState`, map.js lines 71–93) -/

/-- One feature of the `/states` geometry collection: its
`properties.state_name` field and an opaque geometry identifier. -/
structure GeoFeature where
  state_name : Option String
  geomId : Nat
deriving DecidableEq, Repr

/-- Payload of `/state_metrics?state=`. -/
structure RegionMetrics where
  solar_highly_suitable_km2 : Option ℚ
  wind_highly_suitable_km2 : Option ℚ
  solar_mean_score : Option ℚ
  wind_mean_score : Option ℚ
deriving DecidableEq, Repr

/-- The region record handed to `updateDashboard(data, 'state')`:
metrics plus `data.state_name = stateName`. -/
structure RegionRecord where
  metrics : RegionMetrics
  state_name : String
deriving DecidableEq, Repr

/-- Observable outcome of one `fetchAndZoomState` run: the feature
highlighted and zoomed to (if any), the record handed to the dashboard,
and the catch-block error status (if raised). -/
structure RegionOutcome where
  highlighted : Option GeoFeature
  dashboardUpdate : Option RegionRecord
  errorStatus : Option String
deriving DecidableEq, Repr

/-- ASCII lower-casing of one character, as `toLowerCase` acts on the
A–Z range. -/
def charLower (c : Char) : Char :=
  if 65 ≤ c.toNat ∧ c.toNat ≤ 90 then Char.ofNat (c.toNat + 32) else c

/-- `s.toLowerCase()` on ASCII strings. -/
def strLower (s : String) : String :=
  ⟨s.data.map charLower⟩

/-- `geoData.features.find(f => (f.properties.state_name || '').toLowerCase()
=== stateName.toLowerCase())`. -/
def findFeature (features : List GeoFeature) (stateName : String) : Option GeoFeature :=
  features.find? (fun f => strLower (f.state_name.getD "") == strLower stateName)

/-- `fetchAndZoomState(stateName)` (map.js lines 71–93) as a function of
the two fetch results. A rejected fetch throws into the catch block; an
unmatched geometry name merely skips the highlight/zoom branch, and
`updateDashboard` still runs. -/
def fetchAndZoomState (stateName : String) (metricsRes : FetchResult RegionMetrics)
    (geoRes : FetchResult (List GeoFeature)) : RegionOutcome :=
  match metricsRes with
  | .failed =>
      { highlighted := none, dashboardUpdate := none,
        errorStatus := some "Regional server connection failed." }
  | .ok metrics =>
      match geoRes with
      | .failed =>
          { highlighted := none, dashboardUpdate := none,
            errorStatus := some "Regional server connection failed." }
      | .ok features =>
          { highlighted := findFeature features stateName,
            dashboardUpdate := some { metrics := metrics, state_name := stateName },
            errorStatus := none }

/-! ## GPS location flow (`triggerGPSOrchestrator`, map.js lines 95–110) -/

/-- `SOMALIA_BOUNDS = { lat: [-1.5, 12.0], lon: [41.0, 51.5] }`. -/
structure RegionBounds where
  latMin : ℚ
  latMax : ℚ
  lonMin : ℚ
  lonMax : ℚ
deriving DecidableEq, Repr

def SOMALIA_BOUNDS : RegionBounds :=
  { latMin := -1.5, latMax := 12.0, lonMin := 41.0, lonMax := 51.5 }

/-- The containment test `inSom` of `triggerGPSOrchestrator` (inclusive on
all four edges). -/
def inSomalia (lat lon : ℚ) : Bool :=
  decide (SOMALIA_BOUNDS.latMin ≤ lat ∧ lat ≤ SOMALIA_BOUNDS.latMax ∧
          SOMALIA_BOUNDS.lonMin ≤ lon ∧ lon ≤ SOMALIA_BOUNDS.lonMax)

/-- The configured simulation coordinate (Mogadishu). -/
def SIM_LAT : ℚ := 2.0467
def SIM_LON : ℚ := 45.3438

/-- The `orchestrateSpatialAnalysis` call issued for a device coordinate:
its arguments (coordinate and source tag) and the status message written
before the call. -/
structure GPSDispatch where
  callLat : ℚ
  callLon : ℚ
  src : String
  preStatus : Option String
deriving DecidableEq, Repr

/-- `triggerGPSOrchestrator` success path (map.js lines 100–109): a device
coordinate inside `SOMALIA_BOUNDS` is analyzed as-is with source "gps";
one outside is replaced by the simulation coordinate, analyzed with the
default source "manual", after writing the simulation status message. -/
def triggerGPSOrchestrator (lat lon : ℚ) : GPSDispatch :=
  if inSomalia lat lon then
    { callLat := lat, callLon := lon, src := "gps", preStatus := none }
  else
    { callLat := SIM_LAT, callLon := SIM_LON, src := "manual",
      preStatus := some "Kenya Context: Simulating Somalia Site..." }

/-- Fresh wizard session in domain `d` at step `st` (no answers, no
location), the state in which the §4.5 table rows are replayed. -/
def wizAt (d : AppDomain) (st : Nat) : WizardState :=
  { sect := some d, step := st, data := [], loc := none }

/-! ## Theorems -/

/-- `categoryRank (classify s)` as a threshold formula. -/
lemma rank_classify (s : ℚ) :
    categoryRank (classify s) =
      if s < 2 then 0 else if s < 4 then 1 else if s < 6 then 2 else if s < 8 then 3 else 4 := by
  unfold classify categoryRank
  split_ifs <;> rfl

/-- C2: `classify` maps [0,2) to Lowest, [2,4) to Low, [4,6) to Moderate,
[6,8) to High and [8,∞) to Highest, with no clamping (negative scores also
fall in the lowest band, scores above 10 in the highest); consequently the
category rank is monotone non-decreasing in the score, and the bands
change exactly at 2, 4, 6 and 8. -/
theorem classify_thresholds_monotone :
    (∀ s : ℚ,
      (0 ≤ s → s < 2 → classify s = Category.lowest) ∧
      (2 ≤ s → s < 4 → classify s = Category.low) ∧
      (4 ≤ s → s < 6 → classify s = Category.moderate) ∧
      (6 ≤ s → s < 8 → classify s = Category.high) ∧
      (8 ≤ s → classify s = Category.highest) ∧
      (s < 0 → classify s = Category.lowest)) ∧
    (∀ s t : ℚ, s ≤ t → categoryRank (classify s) ≤ categoryRank (classify t)) ∧
    (classify 2 = Category.low ∧ classify 4 = Category.moderate ∧
     classify 6 = Category.high ∧ classify 8 = Category.highest) := by
  refine ⟨fun s => ⟨?_, ?_, ?_, ?_, ?_, ?_⟩, fun s t hst => ?_, by decide⟩
  · intro _ h2
    unfold classify
    rw [if_pos h2]
  · intro h h'
    unfold classify
    rw [if_neg (not_lt.mpr h), if_pos h']
  · intro h h'
    unfold classify
    rw [if_neg (by linarith), if_neg (not_lt.mpr h), if_pos h']
  · intro h h'
    unfold classify
    rw [if_neg (by linarith), if_neg (by linarith), if_neg (not_lt.mpr h), if_pos h']
  · intro h
    unfold classify
    rw [if_neg (by linarith), if_neg (by linarith), if_neg (by linarith),
      if_neg (not_lt.mpr h)]
  · intro h
    unfold classify
    rw [if_pos (by linarith)]
  · rw [rank_classify, rank_classify]
    split_ifs <;> first | omega | linarith

/-- Witness for C2: the thresholds and monotonicity at concrete scores. -/
theorem classify_thresholds_monotone_witness :
    classify 1 = Category.lowest ∧ classify 3 = Category.low ∧
    classify 5 = Category.moderate ∧ classify 7 = Category.high ∧
    classify 9 = Category.highest ∧ classify 11 = Category.highest ∧
    classify (-1) = Category.lowest ∧
    categoryRank (classify 3) ≤ categoryRank (classify 7) :=
  ⟨(classify_thresholds_monotone.1 1).1 (by norm_num) (by norm_num),
   (classify_thresholds_monotone.1 3).2.1 (by norm_num) (by norm_num),
   (classify_thresholds_monotone.1 5).2.2.1 (by norm_num) (by norm_num),
   (classify_thresholds_monotone.1 7).2.2.2.1 (by norm_num) (by norm_num),
   (classify_thresholds_monotone.1 9).2.2.2.2.1 (by norm_num),
   (classify_thresholds_monotone.1 11).2.2.2.2.1 (by norm_num),
   (classify_thresholds_monotone.1 (-1)).2.2.2.2.2 (by norm_num),
   classify_thresholds_monotone.2.1 3 7 (by norm_num)⟩

/-- C3: whenever the record's slope is strictly above the configured limit
(`slopeLimit = 15`), `DecisionAgent.analyze` returns the high-slope
constraint advisory, whatever the solar and wind scores and state name. -/
theorem analyze_slope_gate (solar wind : Option ℚ) (name : Option String)
    (slope : ℚ) (h : slope > slopeLimit) :
    analyze { solar_mean_score := solar, wind_mean_score := wind,
              slope := some slope, state_name := name } =
      Advisory.constraintHighSlope slope := by
  unfold analyze
  rw [if_pos (by simpa using h)]
  rfl

/-- Witness for C3: a slope of 20° forces the constraint advisory even at
a perfect solar score. -/
theorem analyze_slope_gate_witness :
    analyze { solar_mean_score := some 10, wind_mean_score := some 10,
              slope := some 20, state_name := some "Banadir" } =
      Advisory.constraintHighSlope 20 :=
  analyze_slope_gate (some 10) (some 10) (some "Banadir") 20 (by norm_num [slopeLimit])

/-- C4: when the pixel-metrics slot yields no data — whether the response
resolved non-OK or the fetch rejected outright — `orchestrateSpatialAnalysis`
hands nothing to the dashboard (no SiteRecord is produced) and writes the
distinct no-coverage status, different from the success status — whatever
the region-metrics slot returned. -/
theorem orchestrate_noCoverage (lat lon : ℚ) (stateRes : FetchOutcome StateMetrics) :
    (orchestrateSpatialAnalysis lat lon .notOk stateRes).dashboardUpdate = none ∧
    (orchestrateSpatialAnalysis lat lon .notOk stateRes).status =
      "Error: Coordinate outside data domain." ∧
    (orchestrateSpatialAnalysis lat lon .rejected stateRes).dashboardUpdate = none ∧
    (orchestrateSpatialAnalysis lat lon .rejected stateRes).status =
      "Error: Coordinate outside data domain." ∧
    "Error: Coordinate outside data domain." ≠ "Point Analysis Synchronized." := by
  refine ⟨?_, ?_, ?_, ?_, by decide⟩ <;> cases stateRes <;> rfl

/-- C6 counterexample: a rejected region-metrics fetch (transport failure
or `json()` throwing) rejects the `Promise.all` into the catch block even
though pixel-metrics succeeded: the whole operation fails, no SiteRecord
is produced and no dashboard update happens — refuting "failure of the
region-metrics slot does not fail the operation" for that failure mode. -/
theorem orchestrate_region_rejected_fails :
    (orchestrateSpatialAnalysis 2 45
        (.ok { solar_mean_score := some 7, wind_mean_score := some 5, slope := some 3,
               mean_ghi := none, mean_wind_speed_ms := none, mean_wpd := none })
        .rejected).dashboardUpdate = none ∧
    (orchestrateSpatialAnalysis 2 45
        (.ok { solar_mean_score := some 7, wind_mean_score := some 5, slope := some 3,
               mean_ghi := none, mean_wind_speed_ms := none, mean_wpd := none })
        .rejected).status = "Error: Coordinate outside data domain." :=
  ⟨rfl, rfl⟩

/-- C6 amended: only a region-metrics response that *resolves* non-OK
leaves the operation intact: then a SiteRecord is still produced from the
pixel payload with the region-name slot degraded to the placeholder
"Unmapped Area" and the success status written; a rejected region-metrics
fetch instead fails the whole operation through the catch block. -/
theorem orchestrate_region_notOk_degraded (lat lon : ℚ) (pd : PixelData) :
    orchestrateSpatialAnalysis lat lon (.ok pd) .notOk =
      { dashboardUpdate := some
          { pixel := pd, lat := lat, lon := lon, state_name := some "Unmapped Area" },
        status := "Point Analysis Synchronized." } ∧
    orchestrateSpatialAnalysis lat lon (.ok pd) .rejected = orchestrationFailure :=
  ⟨rfl, rfl⟩

/-- C9: from any wizard session state, restarting returns the session to
the menu state — no domain selected, step 1, all accumulated answers
discarded — in both the `resetWiz` and the `resetQuestionnaire` variant. -/
theorem resetWiz_menu (st : WizardState) (qs : QuestionnaireState) :
    resetWiz st = { sect := none, step := 1, data := [], loc := none } ∧
    resetQuestionnaire qs = { currentSection := none, currentQNum := 1, answers := [] } :=
  ⟨rfl, rfl⟩

/-- C1: replaying every (domain, step, answer) row of the §4.5 transition
table yields exactly the stated outcome — the stated next (domain, step)
for the continuation rows, and the stated terminal recommendation with its
literal model identifier for the terminal rows (cooking step 2 appends the
pressure-cooker add-on exactly when the answer is "yes"). -/
theorem procWiz_table :
    procWiz (wizAt .waterPumping 1) "surface" =
      .finish "Model: DHFS300 (1500W; PV 6×335W)"
        "Optimized for surface water points in undefined" ∧
    procWiz (wizAt .waterPumping 1) "underground" =
      .next { sect := some .waterPumping, step := 2, data := [(1, "underground")], loc := none } ∧
    procWiz (wizAt .waterPumping 2) "less-30" =
      .next { sect := some .waterPumping, step := 3, data := [(2, "less-30")], loc := none } ∧
    procWiz (wizAt .waterPumping 2) "31-40" =
      .finish "Model: SUNFLO-B 500C (500W; PV 4×200W; Max 6m³/day)" "" ∧
    procWiz (wizAt .waterPumping 2) "41-50" =
      .finish "Model: SUNFLO-A 270H (270W; PV 4×200W; Max 3m³/day)" "" ∧
    procWiz (wizAt .waterPumping 2) "51-60" =
      .finish "Model: SUNFLO-S 300 (300W; PV 2×200W; Max 3m³/day)" "" ∧
    procWiz (wizAt .waterPumping 2) "61-70" =
      .next { sect := some .waterPumping, step := 7, data := [(2, "61-70")], loc := none } ∧
    procWiz (wizAt .waterPumping 3) "1" = .finish "Model: SUNFLO-S 150" "" ∧
    procWiz (wizAt .waterPumping 3) "2" = .finish "Model: SUNFLO-A 150H" "" ∧
    procWiz (wizAt .waterPumping 3) "3" = .finish "Model: SUNFLO-B 120H" "" ∧
    procWiz (wizAt .waterPumping 7) "4" = .finish "Model: SUNFLO-A 600H (Motor 600W)" "" ∧
    procWiz (wizAt .waterPumping 7) "12" = .finish "Model: SUNFLO-B 1000C (Motor 1000W)" "" ∧
    procWiz (wizAt .refrigeration 1) "less-55" =
      .finish "Model: SUNFRIDGE 55 (80W; 430x230x315mm)" "" ∧
    procWiz (wizAt .refrigeration 1) "51-130" =
      .finish "Model: SUNFRIDGE 130 (128W; 513x530x585mm)" "" ∧
    procWiz (wizAt .refrigeration 1) "131-240" =
      .finish "Model: SUNFRIDGE 240 (150W; 993x516x594mm)" "" ∧
    procWiz (wizAt .drying 1) "passive" =
      .finish "Supplier: Grekkon Ltd, Kenya" "Agri-product dryer configuration." ∧
    procWiz (wizAt .drying 1) "active" =
      .finish "Supplier: Aqua Hub Kenya" "Agri-product dryer configuration." ∧
    procWiz (wizAt .cooking 1) "single" =
      .next { sect := some .cooking, step := 2, data := [(1, "single")], loc := none } ∧
    procWiz (wizAt .cooking 1) "double" =
      .next { sect := some .cooking, step := 2, data := [(1, "double")], loc := none } ∧
    procWiz { sect := some .cooking, step := 2, data := [(1, "single")], loc := none } "yes" =
      .finish "Single Induction (Athel Tech; 400W Panel) + 6L Pressure Cooker (SCODE, Kenya)" "" ∧
    procWiz { sect := some .cooking, step := 2, data := [(1, "single")], loc := none } "no" =
      .finish "Single Induction (Athel Tech; 400W Panel)" "" ∧
    procWiz { sect := some .cooking, step := 2, data := [(1, "double")], loc := none } "yes" =
      .finish "Double Induction (Athel Tech; 800W Panel) + 6L Pressure Cooker (SCODE, Kenya)" "" ∧
    procWiz { sect := some .cooking, step := 2, data := [(1, "double")], loc := none } "no" =
      .finish "Double Induction (Athel Tech; 800W Panel)" "" := by
  decide

/-- C10: `procWiz` is total over arbitrary answer strings and falls
through to each terminal-bearing step's default: at refrigeration step 1
any answer other than "less-55" / "51-130" yields SUNFRIDGE 240, at
water-pumping step 3 any answer other than "1" / "2" yields SUNFLO-B 120H,
at water-pumping step 7 any answer other than "12" yields SUNFLO-A 600H,
at water-pumping step 2 any answer other than the four listed bands
advances to step 3, and at drying step 1 any answer other than "passive"
yields the Aqua Hub supplier. -/
theorem procWiz_defaults (val : String) :
    (val ≠ "less-55" → val ≠ "51-130" →
      procWiz (wizAt .refrigeration 1) val =
        .finish "Model: SUNFRIDGE 240 (150W; 993x516x594mm)" "") ∧
    (val ≠ "1" → val ≠ "2" →
      procWiz (wizAt .waterPumping 3) val = .finish "Model: SUNFLO-B 120H" "") ∧
    (val ≠ "12" →
      procWiz (wizAt .waterPumping 7) val = .finish "Model: SUNFLO-A 600H (Motor 600W)" "") ∧
    (val ≠ "31-40" → val ≠ "41-50" → val ≠ "51-60" → val ≠ "61-70" →
      procWiz (wizAt .waterPumping 2) val =
        .next { sect := some .waterPumping, step := 3, data := [(2, val)], loc := none }) ∧
    (val ≠ "passive" →
      procWiz (wizAt .drying 1) val =
        .finish "Supplier: Aqua Hub Kenya" "Agri-product dryer configuration.") := by
  refine ⟨?_, ?_, ?_, ?_, ?_⟩ <;> intros <;>
    simp_all [procWiz, wizAt, setData]

/-- Witness for C10: the unlisted answer "garbage" takes each default. -/
theorem procWiz_defaults_witness :
    procWiz (wizAt .refrigeration 1) "garbage" =
      .finish "Model: SUNFRIDGE 240 (150W; 993x516x594mm)" "" ∧
    procWiz (wizAt .waterPumping 3) "garbage" = .finish "Model: SUNFLO-B 120H" "" ∧
    procWiz (wizAt .waterPumping 7) "garbage" =
      .finish "Model: SUNFLO-A 600H (Motor 600W)" "" ∧
    procWiz (wizAt .waterPumping 2) "garbage" =
      .next { sect := some .waterPumping, step := 3, data := [(2, "garbage")], loc := none } ∧
    procWiz (wizAt .drying 1) "garbage" =
      .finish "Supplier: Aqua Hub Kenya" "Agri-product dryer configuration." :=
  ⟨(procWiz_defaults "garbage").1 (by decide) (by decide),
   (procWiz_defaults "garbage").2.1 (by decide) (by decide),
   (procWiz_defaults "garbage").2.2.1 (by decide),
   (procWiz_defaults "garbage").2.2.2.1 (by decide) (by decide) (by decide) (by decide),
   (procWiz_defaults "garbage").2.2.2.2 (by decide)⟩

/-- A first analysis request (the one that resolves last in the stale
scenario). -/
def staleReq : AnalysisRequest :=
  { lat := 1, lon := 42,
    pixelRes := .ok { solar_mean_score := some 5, wind_mean_score := some 3,
                      slope := some 1, mean_ghi := none, mean_wind_speed_ms := none,
                      mean_wpd := none },
    stateRes := .notOk }

/-- A second analysis request, issued after `staleReq` but resolving
first, with a distinct record. -/
def newerReq : AnalysisRequest :=
  { lat := 3, lon := 44,
    pixelRes := .ok { solar_mean_score := some 9, wind_mean_score := some 2,
                      slope := some 2, mean_ghi := none, mean_wind_speed_ms := none,
                      mean_wpd := none },
    stateRes := .notOk }

/-- C5 counterexample: request #1 (`staleReq`) is in flight, request #2
(`newerReq`) is issued and completes first; when #1 later resolves, its
result IS applied to the dashboard — the displayed record is #1's, not
#2's. There is no sequence-number tagging or staleness guard in
`orchestrateSpatialAnalysis`, so the claim's "in-flight result resolving
after a newer request is discarded" fails. -/
theorem runCompletions_stale_displayed :
    runCompletions [newerReq, staleReq] =
      (orchestrateSpatialAnalysis staleReq.lat staleReq.lon
        staleReq.pixelRes staleReq.stateRes).dashboardUpdate ∧
    runCompletions [newerReq, staleReq] ≠
      (orchestrateSpatialAnalysis newerReq.lat newerReq.lon
        newerReq.pixelRes newerReq.stateRes).dashboardUpdate := by
  decide

/-- C5 amended: the code has no sequence numbers; every successful
completion unconditionally overwrites the dashboard, so the displayed
record is that of the last request to complete (resolution order wins,
not issue order). -/
theorem runCompletions_last_wins (reqs : List AnalysisRequest)
    (r : AnalysisRequest) (record : SiteRecord)
    (h : (orchestrateSpatialAnalysis r.lat r.lon r.pixelRes r.stateRes).dashboardUpdate =
      some record) :
    runCompletions (reqs ++ [r]) = some record := by
  unfold runCompletions
  rw [List.foldl_append]
  simp [applyCompletion, h]

/-- Witness for C5's amended statement: after `newerReq` then `staleReq`
complete, the dashboard holds `staleReq`'s record. -/
theorem runCompletions_last_wins_witness :
    runCompletions [newerReq, staleReq] =
      some { pixel := { solar_mean_score := some 5, wind_mean_score := some 3,
                        slope := some 1, mean_ghi := none, mean_wind_speed_ms := none,
                        mean_wpd := none },
             lat := 1, lon := 42, state_name := some "Unmapped Area" } :=
  runCompletions_last_wins [newerReq] staleReq _ rfl

/-- C7: whenever the region-metrics fetch succeeds but the `/states`
geometry collection holds no feature whose name matches the requested
region case-insensitively, `fetchAndZoomState` still hands the
RegionRecord (metrics plus the requested name) to the dashboard, performs
no highlight/zoom, and raises no error. -/
theorem fetchAndZoomState_no_geometry (stateName : String)
    (metrics : RegionMetrics) (features : List GeoFeature)
    (h : findFeature features stateName = none) :
    fetchAndZoomState stateName (.ok metrics) (.ok features) =
      { highlighted := none,
        dashboardUpdate := some { metrics := metrics, state_name := stateName },
        errorStatus := none } := by
  simp [fetchAndZoomState, h]

/-- Witness for C7: "Unknown Region" has no case-insensitive match among
the features, yet the record is produced with no highlight and no error. -/
theorem fetchAndZoomState_no_geometry_witness :
    fetchAndZoomState "Unknown Region"
        (.ok { solar_highly_suitable_km2 := some 100, wind_highly_suitable_km2 := some 50,
               solar_mean_score := some 6, wind_mean_score := some 4 })
        (.ok [{ state_name := some "Banadir", geomId := 0 },
              { state_name := some "JUBALAND", geomId := 1 }]) =
      { highlighted := none,
        dashboardUpdate := some
          { metrics := { solar_highly_suitable_km2 := some 100,
                         wind_highly_suitable_km2 := some 50,
                         solar_mean_score := some 6, wind_mean_score := some 4 },
            state_name := "Unknown Region" },
        errorStatus := none } :=
  fetchAndZoomState_no_geometry "Unknown Region" _ _ (by decide)

/-- C8: a device coordinate outside the configured `SOMALIA_BOUNDS` is
replaced by the configured simulation coordinate (2.0467, 45.3438) before
`orchestrateSpatialAnalysis` is invoked, with the non-"gps" source tag
and the simulation status message making the run distinguishable from a
genuine in-area result; a coordinate inside the bounds is analyzed as-is
with the "gps" tag and no substitute status. -/
theorem triggerGPS_bounds (lat lon : ℚ) :
    (inSomalia lat lon = false →
      triggerGPSOrchestrator lat lon =
        { callLat := SIM_LAT, callLon := SIM_LON, src := "manual",
          preStatus := some "Kenya Context: Simulating Somalia Site..." } ∧
      ("manual" : String) ≠ "gps") ∧
    (inSomalia lat lon = true →
      triggerGPSOrchestrator lat lon =
        { callLat := lat, callLon := lon, src := "gps", preStatus := none }) := by
  constructor
  · intro h
    refine ⟨?_, by decide⟩
    unfold triggerGPSOrchestrator
    rw [if_neg (by simp [h])]
  · intro h
    unfold triggerGPSOrchestrator
    rw [if_pos h]

/-- Witness for C8: Nairobi-like coordinates (-1.3, 36.8) are outside the
bounds and dispatch the simulation coordinate; Mogadishu-like coordinates
(2.05, 45.34) are inside and dispatched unchanged. -/
theorem triggerGPS_bounds_witness :
    (triggerGPSOrchestrator (-1.3) 36.8 =
      { callLat := SIM_LAT, callLon := SIM_LON, src := "manual",
        preStatus := some "Kenya Context: Simulating Somalia Site..." } ∧
     ("manual" : String) ≠ "gps") ∧
    triggerGPSOrchestrator 2.05 45.34 =
      { callLat := 2.05, callLon := 45.34, src := "gps", preStatus := none } :=
  ⟨(triggerGPS_bounds (-1.3) 36.8).1 (by norm_num [inSomalia, SOMALIA_BOUNDS]),
   (triggerGPS_bounds 2.05 45.34).2 (by norm_num [inSomalia, SOMALIA_BOUNDS])⟩

end AttachmentDSS
